import Mathlib

/-!
# Verification of `gusteau` chapter 1 (`src/chapter1.cpp`)

A shallow embedding of the chapter-1 program: the context objects
(`StateContext`, `RenderContext`, `GraphicsContext`, `UIContext`), the
application context with its (shadowed) `join_now` flag, the three engine
functions, and the factory functions.  Heap pointers are modelled with
`Option` (`none` is the null pointer); library calls (GLFW, ImGui) are
modelled by their observable effect on the embedded state, with the outcomes
the program branches on (`glfwInit`, the `Quit` button) passed in as inputs.
-/

set_option autoImplicit false

namespace Gusteau

/-- An abstract GLFW window handle (`GLFWwindow*`); distinct numbers stand
for distinct windows.  A null pointer is `Option.none` at use sites. -/
structure GLFWwindow where
  id : Nat
deriving DecidableEq, Repr

/-- `StateContext::Detail` (chapter1.cpp line 528): an empty struct. -/
inductive StateDetail
  | mk
deriving DecidableEq, Repr

/-- `class StateContext` (lines 62–69): an opaque handle `Detail* m_{}`. -/
structure StateContext where
  m_ : Option StateDetail
deriving DecidableEq, Repr

/-- `StateContext::StateContext() : m_(new Detail()) {}` (lines 531–532):
the constructor allocates the `Detail` in its initializer list. -/
def StateContext.construct : StateContext :=
  { m_ := some StateDetail.mk }

/-- `RenderContext::Detail` (line 541): an empty struct. -/
inductive RenderDetail
  | mk
deriving DecidableEq, Repr

/-- `class RenderContext` (lines 82–89): an opaque handle `Detail* m_{}`. -/
structure RenderContext where
  m_ : Option RenderDetail
deriving DecidableEq, Repr

/-- `RenderContext::RenderContext() : m_(new Detail()) {}` (lines 544–545). -/
def RenderContext.construct : RenderContext :=
  { m_ := some RenderDetail.mk }

/-- `GraphicsContext::Detail` (lines 269–276): no data members. -/
inductive GraphicsDetail
  | mk
deriving DecidableEq, Repr

/-- `class GraphicsContext` (lines 96–103): an opaque handle `Detail* m_{}`. -/
structure GraphicsContext where
  m_ : Option GraphicsDetail
deriving DecidableEq, Repr

/-- `GraphicsContext::GraphicsContext() : m_(new Detail) {}` (lines 279–282). -/
def GraphicsContext.construct : GraphicsContext :=
  { m_ := some GraphicsDetail.mk }

/-- `class GLFWGraphicsContext : public GraphicsContext` (lines 298–342):
the base subobject plus `GLFWwindow* _window{}`. -/
structure GLFWGraphicsContext where
  toGraphicsContext : GraphicsContext
  window : Option GLFWwindow
deriving DecidableEq, Repr

/-- `GLFWGraphicsContext::GLFWGraphicsContext()` (lines 301–334): the base
constructor has already set `m_`; the body throws
`std::runtime_error("Could not initialize glfw")` when `glfwInit()` fails,
otherwise creates the root window and stores it in `_window`.
`glfwInitOk` is the truth value of `glfwInit()` and `createdWindow` the
handle returned by `glfwCreateWindow` (null on failure is `none`; the code
stores it without checking). -/
def GLFWGraphicsContext.construct (glfwInitOk : Bool)
    (createdWindow : Option GLFWwindow) : Except String GLFWGraphicsContext :=
  if glfwInitOk = false then
    Except.error "Could not initialize glfw"
  else
    Except.ok { toGraphicsContext := GraphicsContext.construct
                window := createdWindow }

/-- `CreateRootGraphicsContext` (lines 350–353):
`return std::make_unique<GLFWGraphicsContext>();` — the constructed object,
or the propagated exception. -/
def CreateRootGraphicsContext (glfwInitOk : Bool)
    (createdWindow : Option GLFWwindow) : Except String GLFWGraphicsContext :=
  GLFWGraphicsContext.construct glfwInitOk createdWindow

/-- `UIContext::Detail`'s data members (lines 367–372): the UI window, the
window name and size passed in; the ImGui context and `_run` callback are
represented behaviourally (the callback is `GusteauChapter1UI.Run` below). -/
structure UIDetail where
  window : Option GLFWwindow
  window_name : String
  width : Int
  height : Int
deriving DecidableEq, Repr

/-- `class UIContext` (lines 117–127): an opaque handle `Detail* m_{}`. -/
structure UIContext where
  m_ : Option UIDetail
deriving DecidableEq, Repr

/-- `UIContext::UIContext(...) : m_(new Detail(...))` (lines 499–503): the
constructor allocates the `Detail`, whose own constructor (lines 374–406)
creates the UI window (`createdWindow` is what `glfwCreateWindow` returned)
and records the name. -/
def UIContext.construct (createdWindow : Option GLFWwindow)
    (window_name : String) (width height : Int) : UIContext :=
  { m_ := some { window := createdWindow
                 window_name := window_name
                 width := width
                 height := height } }

/-- `CreateUIContext` (lines 579–583):
`std::make_unique<GusteauChapter1UI>(gc, "gusteau", 1024, 1024)`. -/
def CreateUIContext (createdWindow : Option GLFWwindow) : UIContext :=
  UIContext.construct createdWindow "gusteau" 1024 1024

/-- `class ApplicationContextBase` (lines 107–115): holds
`bool join_now = false;` (line 113) and `std::shared_ptr<UIContext> ui;`
(line 114). -/
structure ApplicationContextBase where
  join_now : Bool
  ui : UIContext
deriving DecidableEq, Repr

/-- `class ApplicationContext : public ApplicationContextBase`
(lines 146–164).  Besides the inherited members it holds
`GraphicsContext& root_graphics_context`, `StateContext state`,
`RenderContext render` — and, crucially, its own `bool join_now{};`
(line 163), a member DISTINCT from `ApplicationContextBase::join_now`
that shadows it in name lookup through an `ApplicationContext` lvalue. -/
structure ApplicationContext where
  base : ApplicationContextBase
  root_graphics_context : GraphicsContext
  state : StateContext
  render : RenderContext
  join_now : Bool
deriving DecidableEq, Repr

/-- The `ApplicationContext` constructor (lines 149–153): the base
subobject is default-constructed (`join_now = false`), then `ui = ui_;`
assigns the base's `ui` member; `state` and `render` are
default-constructed; the derived `join_now{}` initializes to `false`. -/
def ApplicationContext.construct (gc : GraphicsContext) (ui : UIContext) :
    ApplicationContext :=
  { base := { join_now := false, ui := ui }
    root_graphics_context := gc
    state := StateContext.construct
    render := RenderContext.construct
    join_now := false }

/-- `CreateApplicationContext` (lines 166–169):
`std::make_shared<ApplicationContext>(gc, ui)`. -/
def CreateApplicationContext (gc : GraphicsContext) (ui : UIContext) :
    ApplicationContext :=
  ApplicationContext.construct gc ui

/-- `ApplicationContext::Update` (line 157): an empty body,
`{}    // doesn't need to do anything for chapter 1`. -/
def ApplicationContext.Update (ac : ApplicationContext) : ApplicationContext :=
  ac

/-- The C++ member assignment `ac.join_now = b` performed through an
`ApplicationContext` lvalue: name lookup finds the derived class's own
`join_now` (line 163), so only that member changes. -/
def ApplicationContext.assign_join_now (ac : ApplicationContext) (b : Bool) :
    ApplicationContext :=
  { ac with join_now := b }

/-- The C++ member assignment `acb.join_now = b` performed through an
`ApplicationContextBase` lvalue or pointer: it writes
`ApplicationContextBase::join_now` (line 113), the member the engine loops
read; the derived class's shadowing member is untouched. -/
def ApplicationContext.assign_base_join_now (ac : ApplicationContext)
    (b : Bool) : ApplicationContext :=
  { ac with base := { ac.base with join_now := b } }

/-- `GusteauChapter1UI::Run(ApplicationContext& ac)` (lines 569–576):
draws `"Hello world"`, and if the `Quit` button reports a click
(`quit_clicked` is the value of `ImGui::Button("Quit")` this frame) executes
`ac.join_now = true;` — which, `ac` being an `ApplicationContext&`, assigns
the derived class's own `join_now` member. -/
def GusteauChapter1UI.Run (quit_clicked : Bool) (ac : ApplicationContext) :
    ApplicationContext :=
  if quit_clicked then ac.assign_join_now true else ac

/-- `UIContext::Detail::Render(ApplicationContextBase& context)`
(lines 438–495).  Guard (line 440): `if (!_window || context.join_now)
return;` — `context` is an `ApplicationContextBase&`, so `context.join_now`
reads the BASE member.  Otherwise it renders a frame (GL setup, ImGui
frame, clear, draw, swap) and invokes the `_run` callback, which is
`GusteauChapter1UI::Run` with the application context.  Returns the updated
context and whether a frame was rendered. -/
def UIDetail.Render (quit_clicked : Bool) (window : Option GLFWwindow)
    (ac : ApplicationContext) : ApplicationContext × Bool :=
  if window = none ∨ ac.base.join_now = true then
    (ac, false)
  else
    (GusteauChapter1UI.Run quit_clicked ac, true)

/-- `UIContext::Render` (line 510): `{ m_->Render(context); }` — pure
delegation to the `Detail`.  A null `m_` would dereference a null pointer;
it never occurs since the constructor allocates `m_`, and is modelled as
rendering nothing. -/
def UIContext.Render (quit_clicked : Bool) (ui : UIContext)
    (ac : ApplicationContext) : ApplicationContext × Bool :=
  match ui.m_ with
  | none => (ac, false)
  | some d => UIDetail.Render quit_clicked d.window ac

/-- The observable steps of one `UIEngine` loop iteration (lines 516–525),
in order. -/
inductive UIAction
  | waitEventsTimeout (timeout : ℚ)
  | renderUI
  | updateContext
deriving DecidableEq, Repr

/-- One iteration of `UIEngine`'s `while` body (lines 516–525):
`glfwWaitEventsTimeout(1.f / 24.f);` then
`context->ui->Render(*context.get());` then `context->Update();`.
Returns the context after the iteration together with the ordered trace of
the steps performed. -/
def uiEngineIter (quit_clicked : Bool) (ac : ApplicationContext) :
    ApplicationContext × List UIAction :=
  let rendered := UIContext.Render quit_clicked ac.base.ui ac
  let updated := ApplicationContext.Update rendered.1
  (updated,
    [UIAction.waitEventsTimeout (1 / 24), UIAction.renderUI,
     UIAction.updateContext])

/-- `UIEngine` (lines 514–526): `while (!context->join_now) { ... }` —
`context` is a `shared_ptr<ApplicationContextBase>`, so the loop condition
reads `ApplicationContextBase::join_now`.  `clicks n` tells whether the
`Quit` button reports a click on the `n`-th iteration.  `fuel` bounds the
number of loop-condition checks: `some ac` means the function returned with
final context `ac`; `none` means the loop was still running when the fuel
ran out. -/
def UIEngine : Nat → (Nat → Bool) → ApplicationContext →
    Option ApplicationContext
  | 0, _, _ => none
  | fuel + 1, clicks, ac =>
    if ac.base.join_now = true then
      some ac
    else
      UIEngine fuel (fun k => clicks (k + 1)) (uiEngineIter (clicks 0) ac).1

/-- `StateEngine` (line 539): an empty body — it returns at once.  The
second component counts how many times the body read the `join_now` flag:
zero. -/
def StateEngine (ac : ApplicationContext) : ApplicationContext × Nat :=
  (ac, 0)

/-- `RenderEngine` (line 552): an empty body — it returns at once.  The
second component counts how many times the body read the `join_now` flag:
zero. -/
def RenderEngine (ac : ApplicationContext) : ApplicationContext × Nat :=
  (ac, 0)

/-- The root window `glfwCreateWindow` returns in
`GLFWGraphicsContext`'s constructor (line 310), in a successful run. -/
def rootWindow : GLFWwindow := { id := 0 }

/-- The UI window `glfwCreateWindow` returns in `UIContext::Detail`'s
constructor (line 384), in a successful run. -/
def uiWindow : GLFWwindow := { id := 1 }

/-- The application context as `main` (lines 205–215) builds it in a
successful run: root graphics context created, UI context created with a
live window, then `CreateApplicationContext`.  Both `join_now` members are
`false`. -/
def initialAppCtx : ApplicationContext :=
  CreateApplicationContext GraphicsContext.construct
    (CreateUIContext (some uiWindow))

/-- A click stream in which the user presses `Quit` on every frame. -/
def quitEveryFrame : Nat → Bool := fun _ => true

/-- `initialAppCtx` after the base `join_now` has been set — the state the
engine loops are meant to stop in. -/
def ctxBaseTrue : ApplicationContext :=
  initialAppCtx.assign_base_join_now true

/-! ## Helper lemmas -/

/-- One `UIEngine` iteration never changes `ApplicationContextBase::join_now`:
`Detail::Render` only ever calls `GusteauChapter1UI::Run`, whose assignment
targets the derived class's shadowing member, and `Update` is a no-op. -/
theorem uiEngineIter_base_join_now (quit_clicked : Bool)
    (ac : ApplicationContext) :
    (uiEngineIter quit_clicked ac).1.base.join_now = ac.base.join_now := by
  simp only [uiEngineIter, ApplicationContext.Update, UIContext.Render]
  cases hm : ac.base.ui.m_ with
  | none => rfl
  | some d =>
    simp only [UIDetail.Render]
    split
    · rfl
    · simp only [GusteauChapter1UI.Run, ApplicationContext.assign_join_now]
      split <;> rfl

/-- One `UIEngine` iteration preserves a derived `join_now` already `true`:
the only write is `Run`'s assignment of `true`. -/
theorem uiEngineIter_join_now_mono (quit_clicked : Bool)
    (ac : ApplicationContext) (h : ac.join_now = true) :
    (uiEngineIter quit_clicked ac).1.join_now = true := by
  simp only [uiEngineIter, ApplicationContext.Update, UIContext.Render]
  cases hm : ac.base.ui.m_ with
  | none => exact h
  | some d =>
    simp only [UIDetail.Render]
    split
    · exact h
    · simp only [GusteauChapter1UI.Run, ApplicationContext.assign_join_now]
      split
      · rfl
      · exact h

/-- While `ApplicationContextBase::join_now` is `false`, `UIEngine` loops
forever: no iteration can change the member its condition reads. -/
theorem UIEngine_none_of_base_false : ∀ (fuel : Nat) (clicks : Nat → Bool)
    (ac : ApplicationContext), ac.base.join_now = false →
    UIEngine fuel clicks ac = none := by
  intro fuel
  induction fuel with
  | zero => intro clicks ac _; rfl
  | succ n ih =>
    intro clicks ac h
    simp only [UIEngine, h]
    exact ih _ _ (by rw [uiEngineIter_base_join_now]; exact h)

/-- When `UIEngine` returns, the context it returns has
`ApplicationContextBase::join_now = true`: the loop exits only on observing
the flag. -/
theorem UIEngine_some_base_true : ∀ (fuel : Nat) (clicks : Nat → Bool)
    (ac ac' : ApplicationContext), UIEngine fuel clicks ac = some ac' →
    ac'.base.join_now = true := by
  intro fuel
  induction fuel with
  | zero => intro clicks ac ac' h; exact absurd h (by simp [UIEngine])
  | succ n ih =>
    intro clicks ac ac' h
    by_cases hb : ac.base.join_now = true
    · simp only [UIEngine, hb, if_pos] at h
      cases h
      exact hb
    · simp only [UIEngine, hb, if_neg] at h
      exact ih _ _ _ h

/-- `UIEngine` preserves a derived `join_now` already `true` through any
number of iterations. -/
theorem UIEngine_join_now_mono : ∀ (fuel : Nat) (clicks : Nat → Bool)
    (ac ac' : ApplicationContext), UIEngine fuel clicks ac = some ac' →
    ac.join_now = true → ac'.join_now = true := by
  intro fuel
  induction fuel with
  | zero => intro clicks ac ac' h; exact absurd h (by simp [UIEngine])
  | succ n ih =>
    intro clicks ac ac' h hj
    by_cases hb : ac.base.join_now = true
    · simp only [UIEngine, hb, if_pos] at h
      cases h
      exact hj
    · simp only [UIEngine, hb, if_neg] at h
      exact ih _ _ _ h (uiEngineIter_join_now_mono _ _ hj)

/-! ## The claims -/

/-- C1: the claim says pressing `Quit` makes `GusteauChapter1UI::Run` set
"the" `join_now` flag and thereafter every engine loop exits.  The code
does the opposite: `Run` receives an `ApplicationContext&` and its
`ac.join_now = true` assigns the derived class's shadowing member
(line 163), while `UIEngine`'s loop condition reads
`ApplicationContextBase::join_now` (line 113) through a base pointer.
Starting from `main`'s context, with `Quit` clicked on every frame, the
derived flag does become `true` after one iteration, the base flag stays
`false`, and `UIEngine` never returns for any number of iterations. -/
theorem quit_button_never_stops_engine_loops :
    (∀ fuel : Nat, UIEngine fuel quitEveryFrame initialAppCtx = none)
    ∧ (uiEngineIter true initialAppCtx).1.join_now = true
    ∧ (uiEngineIter true initialAppCtx).1.base.join_now = false :=
  ⟨fun fuel => UIEngine_none_of_base_false fuel quitEveryFrame initialAppCtx rfl,
   rfl, rfl⟩

/-- C2: `ApplicationContext` declares its own `join_now` (line 163) distinct
from `ApplicationContextBase::join_now` (line 113): the quit handler's
assignment through an `ApplicationContext` lvalue is exactly
`assign_join_now true`, which sets the derived member and leaves the base
member unchanged at `false`; and conversely assigning the base member
(as code holding an `ApplicationContextBase*` would) leaves the derived
member unchanged. -/
theorem derived_join_now_shadows_base (ac : ApplicationContext) :
    GusteauChapter1UI.Run true ac = ac.assign_join_now true
    ∧ (ac.base.join_now = false →
        (ac.assign_join_now true).base.join_now = false
        ∧ (ac.assign_join_now true).join_now = true)
    ∧ (ac.join_now = false →
        (ac.assign_base_join_now true).join_now = false
        ∧ (ac.assign_base_join_now true).base.join_now = true) :=
  ⟨rfl, fun h => ⟨h, rfl⟩, fun h => ⟨h, rfl⟩⟩

/-- C3 counterexample: the claim says each of `StateEngine`, `RenderEngine`
and `UIEngine` repeatedly reads the shared `join_now` flag and returns
exactly when it observes it `true`.  But `StateEngine` (line 539) has an
empty body: on `main`'s initial context, whose flag is `false`, it returns
at once having read the flag zero times. -/
theorem state_engine_returns_without_reading_flag :
    StateEngine initialAppCtx = (initialAppCtx, 0)
    ∧ initialAppCtx.base.join_now = false
    ∧ ¬ (1 ≤ (StateEngine initialAppCtx).2
          ∧ initialAppCtx.base.join_now = true) := by
  refine ⟨rfl, rfl, ?_⟩
  intro h
  exact absurd h.1 (by decide)

/-- C3 as amended: only `UIEngine` polls the flag — it returns exactly when
it observes `ApplicationContextBase::join_now = true` (whenever it returns
the flag is `true`, and when the flag is `true` it returns at once) — while
`StateEngine` and `RenderEngine` (lines 539, 552) return immediately
without reading the flag at all. -/
theorem only_ui_engine_polls_join_now (fuel : Nat) (clicks : Nat → Bool)
    (ac ac' : ApplicationContext) :
    (UIEngine fuel clicks ac = some ac' → ac'.base.join_now = true)
    ∧ (ac.base.join_now = true → UIEngine (fuel + 1) clicks ac = some ac)
    ∧ StateEngine ac = (ac, 0)
    ∧ RenderEngine ac = (ac, 0) :=
  ⟨fun h => UIEngine_some_base_true fuel clicks ac ac' h,
   fun h => by simp [UIEngine, h],
   rfl, rfl⟩

/-- C4: in chapter 1 only the UI engine does anything: `StateEngine`
(line 539), `RenderEngine` (line 552) and `ApplicationContext::Update`
(line 157) return the application context with every field —
`join_now` (both members), `ui`, `state`, `render`,
`root_graphics_context` — unchanged, and perform no reads or other
effects. -/
theorem inert_engines_leave_context_unchanged (ac : ApplicationContext) :
    ApplicationContext.Update ac = ac
    ∧ StateEngine ac = (ac, 0)
    ∧ RenderEngine ac = (ac, 0) :=
  ⟨rfl, rfl, rfl⟩

/-- C5: every iteration of `UIEngine`'s loop taken while
`ApplicationContextBase::join_now` is `false` performs exactly, in order:
`glfwWaitEventsTimeout(1/24)`, then `Render` on the context's UI object,
then `Update` on the context — and the loop, when its condition sees the
flag `false`, executes exactly that iteration before re-checking. -/
theorem ui_engine_iteration_steps (quit_clicked : Bool)
    (ac : ApplicationContext) (h : ac.base.join_now = false) :
    (uiEngineIter quit_clicked ac).2 =
      [UIAction.waitEventsTimeout (1 / 24), UIAction.renderUI,
       UIAction.updateContext]
    ∧ (∀ (fuel : Nat) (clicks : Nat → Bool),
        UIEngine (fuel + 1) clicks ac =
          UIEngine fuel (fun k => clicks (k + 1)) (uiEngineIter (clicks 0) ac).1) :=
  ⟨rfl, fun fuel clicks => by simp [UIEngine, h]⟩

/-- C5 witness: the iteration trace at `main`'s initial context, whose
flag is `false`. -/
theorem ui_engine_iteration_steps_witness :
    (uiEngineIter true initialAppCtx).2 =
      [UIAction.waitEventsTimeout (1 / 24), UIAction.renderUI,
       UIAction.updateContext] :=
  (ui_engine_iteration_steps true initialAppCtx rfl).1

/-- C6: `join_now` is set idempotently and monotonically: the one write in
the program, the quit handler's, computes `old ∨ clicked` on the derived
member and never touches the base member; each loop iteration and the loop
itself preserve `true` in both members; so once either flag is `true` it
stays `true` in every state the program reaches. -/
theorem join_now_set_monotonically (quit_clicked : Bool)
    (ac : ApplicationContext) :
    (GusteauChapter1UI.Run quit_clicked ac).join_now
        = (ac.join_now || quit_clicked)
    ∧ (GusteauChapter1UI.Run quit_clicked ac).base.join_now
        = ac.base.join_now
    ∧ (ac.join_now = true →
        (uiEngineIter quit_clicked ac).1.join_now = true)
    ∧ (ac.base.join_now = true →
        (uiEngineIter quit_clicked ac).1.base.join_now = true)
    ∧ (∀ (fuel : Nat) (clicks : Nat → Bool) (ac' : ApplicationContext),
        UIEngine fuel clicks ac = some ac' →
        (ac.join_now = true → ac'.join_now = true)
        ∧ ac'.base.join_now = true) := by
  refine ⟨?_, ?_, uiEngineIter_join_now_mono quit_clicked ac, ?_, ?_⟩
  · cases hq : quit_clicked <;>
      simp [GusteauChapter1UI.Run, ApplicationContext.assign_join_now]
  · cases hq : quit_clicked <;>
      simp [GusteauChapter1UI.Run, ApplicationContext.assign_join_now]
  · intro h; rw [uiEngineIter_base_join_now]; exact h
  · intro fuel clicks ac' h
    exact ⟨UIEngine_join_now_mono fuel clicks ac ac' h,
           UIEngine_some_base_true fuel clicks ac ac' h⟩

/-- C7 counterexample: the claim says each context object's `Detail` is
lazily created, `m_` being null immediately after construction.  But every
constructor allocates the `Detail` in its initializer list
(lines 279–282, 499–503, 531–532, 544–545): immediately after construction
each `m_` is non-null. -/
theorem detail_pointer_not_null_after_construction :
    StateContext.construct.m_ ≠ none
    ∧ RenderContext.construct.m_ ≠ none
    ∧ GraphicsContext.construct.m_ ≠ none
    ∧ (CreateUIContext (some uiWindow)).m_ ≠ none := by
  refine ⟨?_, ?_, ?_, ?_⟩ <;> intro h <;> cases h

/-- C7 as amended: each context object is an opaque handle wrapping an
implementation `Detail` behind the pointer `m_`, but the `Detail` is
allocated eagerly: every constructor news it in its initializer list, so
immediately after construction `m_` is non-null, for every constructor
argument. -/
theorem detail_pointer_eagerly_allocated (createdWindow : Option GLFWwindow)
    (window_name : String) (width height : Int) :
    StateContext.construct.m_.isSome = true
    ∧ RenderContext.construct.m_.isSome = true
    ∧ GraphicsContext.construct.m_.isSome = true
    ∧ (UIContext.construct createdWindow window_name width height).m_.isSome
        = true :=
  ⟨rfl, rfl, rfl, rfl⟩

/-- C8: `UIContext::Detail::Render`'s guard (line 440),
`if (!_window || context.join_now) return;`, makes `UIContext::Render`
(line 510) return immediately — context unchanged, no frame rendered —
whenever the base `join_now` flag is already `true`, and likewise whenever
the window handle is null. -/
theorem render_returns_immediately_when_joining_or_no_window
    (quit_clicked : Bool) (window : Option GLFWwindow) (ui : UIContext)
    (ac : ApplicationContext) :
    (ac.base.join_now = true →
      UIDetail.Render quit_clicked window ac = (ac, false)
      ∧ UIContext.Render quit_clicked ui ac = (ac, false))
    ∧ UIDetail.Render quit_clicked none ac = (ac, false) := by
  constructor
  · intro h
    constructor
    · simp [UIDetail.Render, h]
    · cases hm : ui.m_ <;> simp [UIContext.Render, hm, UIDetail.Render, h]
  · simp [UIDetail.Render]

/-- C9: `CreateRootGraphicsContext` (lines 350–353) throws
`std::runtime_error("Could not initialize glfw")` exactly when `glfwInit()`
fails (lines 304–305); otherwise it returns the constructed
`GLFWGraphicsContext` — a non-null pointer whose base `Detail` is allocated
and which owns the root shared window `glfwCreateWindow` produced. -/
theorem create_root_graphics_context_error_iff (glfwInitOk : Bool)
    (createdWindow : Option GLFWwindow) :
    (CreateRootGraphicsContext glfwInitOk createdWindow =
        Except.error "Could not initialize glfw" ↔ glfwInitOk = false)
    ∧ (CreateRootGraphicsContext glfwInitOk createdWindow =
        Except.ok { toGraphicsContext := GraphicsContext.construct
                    window := createdWindow } ↔ glfwInitOk = true) := by
  cases glfwInitOk <;>
    simp [CreateRootGraphicsContext, GLFWGraphicsContext.construct]

end Gusteau
